import Mathlib

/-!
Verification of the examfleet-be Lambda handlers.

Each handler in the repository is a Python function
`lambda_handler(event, context)` returning a dict
`{"statusCode": n, "body": json.dumps(obj)}`.  We embed each handler as a
Lean function.  External services (DynamoDB, S3, the HTTP fetcher, the
Firebase verifier, the OpenAI client) are passed in as explicit state or
oracle parameters; the Python standard-library pieces the handlers rely on
(`json.loads`, `base64.b64decode`, `str.split`, `str.lower`) are modelled
below, faithful to CPython on the inputs appearing in this development
(ASCII text, JSON without floats or `\u` escapes, base64 whose `=` signs
are trailing padding).

Responses are modelled structurally: a response body `{"error": msg}` is
`Except.error msg` and a success body is `Except.ok` of a handler-specific
payload type, avoiding re-serialisation.  An uncaught Python exception
(a crash of the Lambda) is modelled as `Except.error` at the outer level
of the handler's return type.
-/

/-- JSON values as produced by `json.loads` (integers only: none of the
handlers' inputs use floats). -/
inductive Json where
  | null : Json
  | bool : Bool → Json
  | num : Int → Json
  | str : String → Json
  | arr : List Json → Json
  | obj : List (String × Json) → Json
deriving Repr

mutual

/-- Structural equality on JSON values, as Python `==` behaves on values
returned by `json.loads` (for the string comparisons the claims involve it
coincides with Python). -/
def jsonEq : Json → Json → Bool
  | .null, .null => true
  | .bool a, .bool b => a = b
  | .num a, .num b => a = b
  | .str a, .str b => a = b
  | .arr a, .arr b => jsonEqList a b
  | .obj a, .obj b => jsonEqFields a b
  | _, _ => false

/-- Elementwise equality of JSON arrays. -/
def jsonEqList : List Json → List Json → Bool
  | [], [] => true
  | a :: as, b :: bs => jsonEq a b && jsonEqList as bs
  | _, _ => false

/-- Fieldwise equality of JSON objects (order-sensitive; enough for the
claims, which never compare objects). -/
def jsonEqFields : List (String × Json) → List (String × Json) → Bool
  | [], [] => true
  | (k, v) :: as, (k2, v2) :: bs => k = k2 && jsonEq v v2 && jsonEqFields as bs
  | _, _ => false

end

/-- Dictionary lookup `d[key]` / `d.get(key)` on a parsed JSON object's
field list. -/
def jlookup (fields : List (String × Json)) (key : String) : Option Json :=
  match fields with
  | [] => none
  | (k, v) :: rest => if k = key then some v else jlookup rest key

/-- Whitespace skipping of the JSON grammar. -/
def skipWs : List Char → List Char
  | [] => []
  | c :: cs => if c = ' ' ∨ c = '\t' ∨ c = '\n' ∨ c = '\r' then skipWs cs else c :: cs

/-- Parse the characters of a JSON string literal after the opening quote,
handling the single-character escapes; `\u` escapes are outside the
modelled subset. -/
def pStrChars : List Char → Except String (List Char × List Char)
  | [] => .error "Unterminated string"
  | c :: cs =>
    if c = '"' then .ok ([], cs)
    else if c = '\\' then
      match cs with
      | [] => .error "Unterminated string"
      | e :: cs2 =>
        let esc : Option Char :=
          if e = '"' then some '"'
          else if e = '\\' then some '\\'
          else if e = '/' then some '/'
          else if e = 'n' then some '\n'
          else if e = 't' then some '\t'
          else if e = 'r' then some '\r'
          else none
        match esc with
        | none => .error "Invalid escape"
        | some d =>
          match pStrChars cs2 with
          | .ok (rest, tail) => .ok (d :: rest, tail)
          | .error e2 => .error e2
    else
      match pStrChars cs with
      | .ok (rest, tail) => .ok (c :: rest, tail)
      | .error e => .error e

/-- Digits of a decimal integer literal. -/
def pDigits : List Char → (List Char × List Char)
  | [] => ([], [])
  | c :: cs =>
    if c.isDigit then
      let (ds, rest) := pDigits cs
      (c :: ds, rest)
    else ([], c :: cs)

/-- Numeric value of a digit list. -/
def digitsToNat : List Char → Nat
  | [] => 0
  | ds => ds.foldl (fun acc c => acc * 10 + (c.toNat - 48)) 0

/-- Test for a literal keyword prefix. -/
def hasPrefixChars : List Char → List Char → Option (List Char)
  | [], cs => some cs
  | _, [] => none
  | p :: ps, c :: cs => if p = c then hasPrefixChars ps cs else none

mutual

/-- Parse one JSON value (fuel-indexed recursion; the initial fuel
`length + 1` always suffices because every recursive call consumes
input). -/
def pVal : Nat → List Char → Except String (Json × List Char)
  | 0, _ => .error "out of fuel"
  | Nat.succ f, cs =>
    match skipWs cs with
    | [] => .error "Expecting value"
    | c :: rest =>
      if c = '{' then pObj f rest
      else if c = '[' then pArr f rest
      else if c = '"' then
        match pStrChars rest with
        | .ok (chars, tail) => .ok (.str (String.mk chars), tail)
        | .error e => .error e
      else if c = '-' then
        match pDigits rest with
        | ([], _) => .error "Expecting value"
        | (ds, tail) => .ok (.num (-(digitsToNat ds : Int)), tail)
      else if c.isDigit then
        match pDigits (c :: rest) with
        | (ds, tail) => .ok (.num (digitsToNat ds : Int), tail)
      else
        match hasPrefixChars "true".data (c :: rest) with
        | some tail => .ok (.bool true, tail)
        | none =>
          match hasPrefixChars "false".data (c :: rest) with
          | some tail => .ok (.bool false, tail)
          | none =>
            match hasPrefixChars "null".data (c :: rest) with
            | some tail => .ok (.null, tail)
            | none => .error "Expecting value"

/-- Parse an object's members after the opening brace. -/
def pObj : Nat → List Char → Except String (Json × List Char)
  | 0, _ => .error "out of fuel"
  | Nat.succ f, cs =>
    match skipWs cs with
    | [] => .error "Expecting property name"
    | c :: rest =>
      if c = '}' then .ok (.obj [], rest)
      else if c = '"' then
        match pStrChars rest with
        | .error e => .error e
        | .ok (key, tail) => pMember f (String.mk key) tail []
      else .error "Expecting property name"

/-- Parse `: value` then either `, member...` or the closing brace;
`acc` holds the members read so far, in order. -/
def pMember : Nat → String → List Char → List (String × Json) → Except String (Json × List Char)
  | 0, _, _, _ => .error "out of fuel"
  | Nat.succ f, key, cs, acc =>
    match skipWs cs with
    | ':' :: rest =>
      match pVal f rest with
      | .error e => .error e
      | .ok (v, tail) =>
        match skipWs tail with
        | ',' :: rest2 =>
          match skipWs rest2 with
          | '"' :: rest3 =>
            match pStrChars rest3 with
            | .error e => .error e
            | .ok (key2, tail2) => pMember f (String.mk key2) tail2 (acc ++ [(key, v)])
          | _ => .error "Expecting property name"
        | '}' :: rest2 => .ok (.obj (acc ++ [(key, v)]), rest2)
        | _ => .error "Expecting delimiter"
    | _ => .error "Expecting colon"

/-- Parse an array's elements after the opening bracket. -/
def pArr : Nat → List Char → Except String (Json × List Char)
  | 0, _ => .error "out of fuel"
  | Nat.succ f, cs =>
    match skipWs cs with
    | ']' :: rest => .ok (.arr [], rest)
    | _ => pElem f cs []

/-- Parse one array element then either `, element...` or the closing
bracket. -/
def pElem : Nat → List Char → List Json → Except String (Json × List Char)
  | 0, _, _ => .error "out of fuel"
  | Nat.succ f, cs, acc =>
    match pVal f cs with
    | .error e => .error e
    | .ok (v, tail) =>
      match skipWs tail with
      | ',' :: rest => pElem f rest (acc ++ [v])
      | ']' :: rest => .ok (.arr (acc ++ [v]), rest)
      | _ => .error "Expecting delimiter"

end

/-- Model of Python `json.loads`: parse one value, then require only
whitespace to remain. -/
def json_loads (s : String) : Except String Json :=
  match pVal (s.data.length + 1) s.data with
  | .error e => .error e
  | .ok (v, rest) =>
    match skipWs rest with
    | [] => .ok v
    | _ => .error "Extra data"

/-- Value of a base64 alphabet character. -/
def b64Val (c : Char) : Option Nat :=
  if 'A' ≤ c ∧ c ≤ 'Z' then some (c.toNat - 65)
  else if 'a' ≤ c ∧ c ≤ 'z' then some (c.toNat - 97 + 26)
  else if '0' ≤ c ∧ c ≤ '9' then some (c.toNat - 48 + 52)
  else if c = '+' then some 62
  else if c = '/' then some 63
  else none

/-- Decode a list of sextet values into byte values: each full group of
four sextets yields three bytes, a trailing pair yields one byte and a
trailing triple yields two. -/
def b64Bytes : List Nat → List Nat
  | a :: b :: c :: d :: rest =>
    (a * 4 + b / 16) :: ((b % 16) * 16 + c / 4) :: ((c % 4) * 64 + d) :: b64Bytes rest
  | [a, b] => [a * 4 + b / 16]
  | [a, b, c] => [a * 4 + b / 16, (b % 16) * 16 + c / 4]
  | _ => []

/-- Model of CPython's lenient `base64.b64decode(s).decode()`: characters
outside the base64 alphabet are discarded (so `b64decode` of the literal
placeholder text is the empty byte string), the total of data characters
and padding must be a multiple of four, and a remainder of one data
character is invalid.  Bytes are mapped to characters by code point, which
agrees with the UTF-8 `decode()` on the ASCII outputs this development
evaluates. -/
def pyB64DecodeStr (s : String) : Except String String :=
  let digits := s.data.filter (fun c => (b64Val c).isSome)
  let pads := (s.data.filter (fun c => c = '=')).length
  if (digits.length + pads) % 4 ≠ 0 then .error "Incorrect padding"
  else if digits.length % 4 = 1 then .error "Invalid base64-encoded string"
  else .ok (String.mk ((b64Bytes (digits.map (fun c => (b64Val c).getD 0))).map Char.ofNat))

/-- The slice of an API Gateway proxy event the handlers read. -/
structure Event where
  body : Option String := none
  isBase64Encoded : Bool := false
  headers : List (String × String) := []
  action : Option String := none

/-- Environment lookup `os.environ.get(key)` followed by a Python
truthiness test: the absent key and the empty value are both "not
configured". -/
def envTruthy (env : List (String × String)) (key : String) : Option String :=
  match env.lookup key with
  | none => none
  | some v => if v = "" then none else some v

/-- How a failed body decode surfaces: a `json.JSONDecodeError` is caught
by the handlers' `except` clauses and mapped to a 400 response, while a
`binascii.Error` from `base64.b64decode` is not in any handler's `except`
tuple and crashes the Lambda. -/
inductive PErr where
  | badJson : String → PErr
  | crash : String → PErr
deriving Repr, DecidableEq

/-- The shared body pipeline of submit_quiz, save_xp_badge_progress,
get_performance, summarize_content and flashcard_generator:
`body = event.get("body") or "\x7b\x7d"`, then if `isBase64Encoded` the
body is base64-decoded, then `json.loads`. -/
def parseBody (event : Event) : Except PErr Json :=
  let body :=
    match event.body with
    | none => "\x7b\x7d"
    | some b => if b = "" then "\x7b\x7d" else b
  if event.isBase64Encoded then
    match pyB64DecodeStr body with
    | .error e => .error (.crash e)
    | .ok t =>
      match json_loads t with
      | .error e => .error (.badJson e)
      | .ok j => .ok j
  else
    match json_loads body with
    | .error e => .error (.badJson e)
    | .ok j => .ok j

/-- An HTTP response `{"statusCode": n, "body": json.dumps(...)}`, with
the body kept structural: `{"error": msg}` is `.error msg`. -/
structure HttpResp (α : Type) where
  statusCode : Nat
  body : Except String α
deriving Repr

/-- Truthiness of a Python value as returned by `json.loads`: `None`,
`False`, `0`, the empty string, the empty list and the empty dict are
falsy. -/
def jsonTruthy : Json → Bool
  | .null => false
  | .bool b => b
  | .num n => n ≠ 0
  | .str s => s ≠ ""
  | .arr l => !l.isEmpty
  | .obj f => !f.isEmpty

/-- Python `a or b` where `a` is `d.get(key)` (so `None` when absent). -/
def pyOrJson (a : Option Json) (b : Json) : Json :=
  match a with
  | some v => if jsonTruthy v then v else b
  | none => b

/-- Conversion `int(x)` on a parsed JSON value: numbers pass through,
booleans become 0 or 1, numeric strings (optionally signed, with
surrounding whitespace) are parsed and other strings raise `ValueError`
(caught by the handlers, hence `badJson`); `None`, lists and dicts raise
`TypeError`, which no handler catches. -/
def pyInt : Json → Except PErr Int
  | .num n => .ok n
  | .bool b => .ok (if b then 1 else 0)
  | .str s =>
    let core := (s.data.dropWhile (fun c => c = ' ' ∨ c = '\t')).reverse.dropWhile (fun c => c = ' ' ∨ c = '\t') |>.reverse
    match core with
    | '-' :: ds => if ds ≠ [] ∧ ds.all Char.isDigit then .ok (-(digitsToNat ds : Int)) else .error (.badJson "invalid literal for int")
    | ds => if ds ≠ [] ∧ ds.all Char.isDigit then .ok ((digitsToNat ds : Int)) else .error (.badJson "invalid literal for int")
  | _ => .error (.crash "TypeError: int argument")

/-! ## submit_quiz/app.py -/

namespace SubmitQuiz

/-- The item `put_item` stores in the quiz-results table. -/
structure QuizItem where
  userId : Json
  quizId : Json
  timestamp : Int
  score : Nat
  totalQuestions : Nat
deriving Repr

/-- The score computed by the handler:
`sum(1 for a, c in zip(answers, correct_answers) if a == c)`. -/
def scoreOf (answers correct : List Json) : Nat :=
  (answers.zip correct).countP (fun p => jsonEq p.1 p.2)

/-- Embedding of `submit_quiz.lambda_handler`.  `env` is the process
environment, `now` the current epoch seconds.  The result pairs the HTTP
response with the item written to DynamoDB, if any.  Values of the wrong
runtime type where Python would raise an uncaught `TypeError` (a non-dict
payload, a non-list answer field) are modelled as a crash. -/
def lambda_handler (env : List (String × String)) (now : Int) (event : Event) :
    Except String (HttpResp Nat × Option QuizItem) :=
  match parseBody event with
  | .error (.crash e) => .error e
  | .error (.badJson e) => .ok (⟨400, .error ("Invalid input: " ++ e)⟩, none)
  | .ok (.obj fields) =>
    match jlookup fields "userId" with
    | none => .ok (⟨400, .error "Invalid input: KeyError userId"⟩, none)
    | some user_id =>
      let quiz_id := (jlookup fields "quizId").getD (.str "unknown")
      match jlookup fields "answers" with
      | none => .ok (⟨400, .error "Invalid input: KeyError answers"⟩, none)
      | some ansJ =>
        match jlookup fields "correctAnswers" with
        | none => .ok (⟨400, .error "Invalid input: KeyError correctAnswers"⟩, none)
        | some corJ =>
          match ansJ, corJ with
          | .arr answers, .arr correct =>
            let score := scoreOf answers correct
            let item : Option QuizItem :=
              match envTruthy env "QUIZ_RESULTS_TABLE" with
              | some _ => some ⟨user_id, quiz_id, now, score, correct.length⟩
              | none => none
            .ok (⟨200, .ok score⟩, item)
          | _, _ => .error "TypeError: zip argument is not iterable"
  | .ok _ => .error "TypeError: payload is not a dict"

end SubmitQuiz

/-! ## save_xp_badge_progress/app.py -/

namespace SaveProgress

/-- A progress-table item: attributes may be individually absent, which is
what `if_not_exists` guards against. -/
structure ProgressItem where
  xp : Option Int := none
  streak : Option Int := none
  lastActivity : Option Int := none
deriving Repr, DecidableEq

/-- Semantics of the handler's `update_item` call on the addressed item:
`SET xp = if_not_exists(xp, :zero) + :xp, lastActivity = :now,
streak = if_not_exists(streak, :zero) + :one`. -/
def updateProgress (old : Option ProgressItem) (xpAdd : Int) (now : Int) : ProgressItem :=
  let o := old.getD {}
  { xp := some (o.xp.getD 0 + xpAdd)
    streak := some (o.streak.getD 0 + 1)
    lastActivity := some now }

/-- Embedding of `save_xp_badge_progress.lambda_handler`.  `store` is the
progress table keyed by userId; the result pairs the response (whose
success payload is the `ALL_NEW` record, key included) with the updated
table. -/
def lambda_handler (env : List (String × String)) (store : String → Option ProgressItem)
    (now : Int) (event : Event) :
    Except String (HttpResp (String × ProgressItem) × (String → Option ProgressItem)) :=
  match parseBody event with
  | .error (.crash e) => .error e
  | .error (.badJson e) => .ok (⟨400, .error ("Invalid input: " ++ e)⟩, store)
  | .ok (.obj fields) =>
    match jlookup fields "userId" with
    | none => .ok (⟨400, .error "Invalid input: KeyError userId"⟩, store)
    | some user_id =>
      match ((match jlookup fields "xp" with
              | none => .ok 0
              | some v => pyInt v) : Except PErr Int) with
      | .error (.crash e) => .error e
      | .error (.badJson e) => .ok (⟨400, .error ("Invalid input: " ++ e)⟩, store)
      | .ok xp =>
        match envTruthy env "PROGRESS_TABLE" with
        | none => .ok (⟨500, .error "PROGRESS_TABLE not configured"⟩, store)
        | some _ =>
          match user_id with
          | .str uid =>
            let newItem := updateProgress (store uid) xp now
            .ok (⟨200, .ok (uid, newItem)⟩, fun u => if u = uid then some newItem else store u)
          | _ => .error "ClientError: key userId is not a string"
  | .ok _ => .error "TypeError: payload is not a dict"

end SaveProgress

/-! ## get_performance/app.py -/

namespace GetPerformance

/-- A quiz-results row as the aggregation reads it: only `score` matters,
and `item.get("score", 0)` tolerates its absence. -/
structure PerfRow where
  score : Option Int := none
deriving Repr, DecidableEq

/-- The aggregate the handler returns on success. -/
structure PerfStats where
  userId : String
  totalQuizzes : Nat
  totalScore : Int
  averageScore : ℚ
deriving Repr, DecidableEq

/-- Embedding of `get_performance.lambda_handler`.  `table` maps a userId
to the rows the DynamoDB query returns for it.  The Python float division
is modelled exactly, over the rationals. -/
def lambda_handler (env : List (String × String)) (table : String → List PerfRow)
    (event : Event) : Except String (HttpResp PerfStats) :=
  match parseBody event with
  | .error (.crash e) => .error e
  | .error (.badJson e) => .ok ⟨400, .error ("Invalid input: " ++ e)⟩
  | .ok (.obj fields) =>
    match jlookup fields "userId" with
    | none => .ok ⟨400, .error "Invalid input: KeyError userId"⟩
    | some user_id =>
      match envTruthy env "QUIZ_RESULTS_TABLE" with
      | none => .ok ⟨500, .error "QUIZ_RESULTS_TABLE not configured"⟩
      | some _ =>
        match user_id with
        | .str uid =>
          let items := table uid
          let total_quizzes := items.length
          let total_score : Int := (items.map (fun r => r.score.getD 0)).sum
          let avg_score : ℚ := if total_quizzes ≠ 0 then (total_score : ℚ) / (total_quizzes : ℚ) else 0
          .ok ⟨200, .ok ⟨uid, total_quizzes, total_score, avg_score⟩⟩
        | _ => .error "ClientError: key userId is not a string"
  | .ok _ => .error "TypeError: payload is not a dict"

end GetPerformance

/-! ## papers_handler/app.py -/

namespace PapersHandler

/-- The fixed mapping of exam identifiers to their official PDF URLs. -/
def exam_urls : List (String × String) :=
  [("UPSC_Civil_Services_Prelims_2024_GS_Paper_I",
    "https://upsc.gov.in/sites/default/files/QP-CSP-24-GENERAL-STUDIES-PAPER-I-180624.pdf"),
   ("UPSC_Civil_Services_Prelims_2024_GS_Paper_II",
    "https://upsc.gov.in/sites/default/files/QP-CSP-24-GENERAL-STUDIES-PAPER-II-180624.pdf"),
   ("SSC_Model_Question_Paper_English",
    "https://ssc.nic.in/Downloads/portal/english/modal-question-paper-english.pdf")]

/-- Embedding of `_handle_download_papers`.  `fetch url` is the combined
effect of `_download_and_store` for that URL: `Except.error e` when the
HTTP request or the S3 upload raises (the exception text is `e`), which
the per-item `try` turns into an inline entry `"<key>: error <e>"`. -/
def handle_download_papers (env : List (String × String))
    (fetch : String → Except String Unit) : HttpResp (List String) :=
  match envTruthy env "BUCKET_NAME" with
  | none => ⟨500, .error "BUCKET_NAME environment variable not set"⟩
  | some _ =>
    let saved_keys := exam_urls.map (fun nu =>
      let key := nu.1 ++ ".pdf"
      match fetch nu.2 with
      | .ok _ => key
      | .error e => key ++ ": error " ++ e)
    ⟨200, .ok saved_keys⟩

/-- Embedding of `_handle_list_papers`; `objects` is the key listing the
S3 client returns for the bucket. -/
def handle_list_papers (env : List (String × String))
    (objects : List String) : HttpResp (List String) :=
  match envTruthy env "BUCKET_NAME" with
  | none => ⟨500, .error "BUCKET_NAME environment variable not set"⟩
  | some _ => ⟨200, .ok objects⟩

/-- Embedding of `papers_handler.lambda_handler`: dispatch on the
event's `action` key. -/
def lambda_handler (env : List (String × String))
    (fetch : String → Except String Unit) (objects : List String)
    (event : Event) : HttpResp (List String) :=
  match event.action with
  | some "download_papers" => handle_download_papers env fetch
  | some "list_papers" => handle_list_papers env objects
  | a => ⟨400, .error ("Unsupported action: " ++ (a.getD "None"))⟩

end PapersHandler

/-! ## upload_handler/app.py -/

namespace UploadHandler

/-- Embedding of `upload_handler.lambda_handler`.  The configuration
check precedes body parsing.  The result pairs the response with the
object written to S3 (key and decoded content), if any.  Unlike the other
handlers, the body default `or "\x7b\x7d"` is applied only after the
base64 decode, so an absent body with the base64 flag set crashes inside
`b64decode(None)`. -/
def lambda_handler (env : List (String × String)) (event : Event) :
    Except String (HttpResp String × Option (String × String)) :=
  match envTruthy env "UPLOADS_BUCKET_NAME" with
  | none => .ok (⟨500, .error "UPLOADS_BUCKET_NAME not configured"⟩, none)
  | some bucket_name =>
    match ((match event.body, event.isBase64Encoded with
            | b, false => .ok b
            | none, true => .error "TypeError: argument should be a bytes-like object"
            | some b, true =>
              match pyB64DecodeStr b with
              | .error e => .error e
              | .ok t => .ok (some t)) : Except String (Option String)) with
    | .error e => .error e
    | .ok body =>
      let text :=
        match body with
        | none => "\x7b\x7d"
        | some b => if b = "" then "\x7b\x7d" else b
      match json_loads text with
      | .error e => .ok (⟨400, .error ("Invalid input: " ++ e)⟩, none)
      | .ok (.obj fields) =>
        match jlookup fields "fileName" with
        | none => .ok (⟨400, .error "Invalid input: KeyError fileName"⟩, none)
        | some fileNameJ =>
          match jlookup fields "fileContent" with
          | none => .ok (⟨400, .error "Invalid input: KeyError fileContent"⟩, none)
          | some fileContentJ =>
            match ((match fileContentJ with
                    | .str s => pyB64DecodeStr s
                    | _ => .error "TypeError: argument should be a bytes-like object")
                   : Except String String) with
            | .error e => .ok (⟨400, .error ("Unable to decode fileContent: " ++ e)⟩, none)
            | .ok file_bytes =>
              match fileNameJ with
              | .str key =>
                .ok (⟨200, .ok ("https://" ++ bucket_name ++ ".s3.amazonaws.com/" ++ key)⟩,
                     some (key, file_bytes))
              | _ => .error "ClientError: object key is not a string"
      | .ok _ => .error "TypeError: payload is not a dict"

end UploadHandler

/-! ## jwt_verify/app.py -/

namespace JwtVerify

/-- Python `str.split()` with no argument: split on runs of whitespace,
dropping empty tokens. -/
def pySplitWsAux : List Char → List Char → List String
  | [], acc => if acc.isEmpty then [] else [String.mk acc.reverse]
  | c :: cs, acc =>
    if c = ' ' ∨ c = '\t' ∨ c = '\n' ∨ c = '\r' then
      if acc.isEmpty then pySplitWsAux cs [] else String.mk acc.reverse :: pySplitWsAux cs []
    else pySplitWsAux cs (c :: acc)

/-- Whitespace split of a string, as `auth_header.split()`. -/
def pySplitWs (s : String) : List String := pySplitWsAux s.data []

/-- ASCII lowering, as `parts[0].lower()` on the ASCII schemes
involved. -/
def asciiLower (s : String) : String :=
  String.mk (s.data.map (fun c => if 'A' ≤ c ∧ c ≤ 'Z' then Char.ofNat (c.toNat + 32) else c))

/-- The header fetch
`headers.get("authorization") or headers.get("Authorization")`: the
lowercase key wins when its value is truthy, otherwise the capitalised
key is consulted. -/
def getAuthHeader (headers : List (String × String)) : Option String :=
  match headers.lookup "authorization" with
  | some s => if s = "" then headers.lookup "Authorization" else some s
  | none => headers.lookup "Authorization"

/-- Embedding of `jwt_verify.lambda_handler`.  `verify` is the Firebase
`auth.verify_id_token` call: `Except.ok` carries the decoded claims and
`Except.error` the exception text of a failed verification. -/
def lambda_handler (verify : String → Except String Json) (event : Event) : HttpResp Json :=
  match getAuthHeader event.headers with
  | none => ⟨401, .error "Missing Authorization header"⟩
  | some h =>
    if h = "" then ⟨401, .error "Missing Authorization header"⟩
    else
      let parts := pySplitWs h
      if parts.length ≠ 2 ∨ asciiLower (parts.headD "") ≠ "bearer" then
        ⟨401, .error "Invalid authorization format"⟩
      else
        match parts with
        | [_, token] =>
          match verify token with
          | .ok decoded => ⟨200, .ok decoded⟩
          | .error e => ⟨401, .error ("Token verification failed: " ++ e)⟩
        | _ => ⟨401, .error "Invalid authorization format"⟩

end JwtVerify

/-- Python `str.strip()`: remove leading and trailing whitespace. -/
def pyStrip (s : String) : String :=
  String.mk (((s.data.dropWhile (fun c => c = ' ' ∨ c = '\t' ∨ c = '\n' ∨ c = '\r')).reverse.dropWhile
    (fun c => c = ' ' ∨ c = '\t' ∨ c = '\n' ∨ c = '\r')).reverse)

/-! ## summarize_content/app.py -/

namespace SummarizeContent

/-- Embedding of `_fallback_summary`:
`text[:1000] + ("..." if len(text) > 1000 else "")`. -/
def fallback_summary (text : String) : String :=
  String.mk (text.data.take 1000) ++ (if 1000 < text.data.length then "..." else "")

/-- Embedding of `summarize_content.lambda_handler`.  `openaiMod` is
whether the `openai` import succeeded; `llm` is the chat-completion call
(returning the raw message content, before the handler's `.strip()`);
`extractPdf` is the PyPDF2 text extraction applied to the base64 payload
of `fileContent`. -/
def lambda_handler (env : List (String × String)) (openaiMod : Bool)
    (llm : String → Except String String) (extractPdf : String → Except String String)
    (event : Event) : Except String (HttpResp String) :=
  match parseBody event with
  | .error (.crash e) => .error e
  | .error (.badJson e) => .ok ⟨400, .error ("Invalid JSON: " ++ e)⟩
  | .ok (.obj fields) =>
    match ((match jlookup fields "text" with
            | some (.str t) =>
              if t ≠ "" then .ok (some t)
              else
                match jlookup fields "fileContent" with
                | some (.str b) =>
                  if b ≠ "" then
                    match extractPdf b with
                    | .ok t2 => .ok (some t2)
                    | .error e => .error e
                  else .ok none
                | _ => .ok none
            | _ =>
              match jlookup fields "fileContent" with
              | some (.str b) =>
                if b ≠ "" then
                  match extractPdf b with
                  | .ok t2 => .ok (some t2)
                  | .error e => .error e
                else .ok none
              | _ => .ok none) : Except String (Option String)) with
    | .error e => .ok ⟨400, .error ("Failed to decode PDF: " ++ e)⟩
    | .ok none => .ok ⟨400, .error "Missing text or fileContent in request"⟩
    | .ok (some text) =>
      if text = "" then .ok ⟨400, .error "No content provided to summarise"⟩
      else
        let summary :=
          if openaiMod ∧ (envTruthy env "OPENAI_API_KEY").isSome then
            match llm text with
            | .ok content => pyStrip content
            | .error _ => fallback_summary text
          else fallback_summary text
        .ok ⟨200, .ok summary⟩
  | .ok _ => .error "AttributeError: payload has no attribute get"

end SummarizeContent

/-! ## flashcard_generator/app.py -/

namespace FlashcardGen

/-- A flashcard as returned to the front-end; `front`, `back` and
`topicId` are whatever values the card dict and payload carried. -/
structure Flashcard where
  id : String
  front : Json
  back : Json
  topicId : Json
deriving Repr

/-- Embedding of `_dummy_flashcards` (its `summary` argument is
unused). -/
def dummy_flashcards : List Json :=
  [Json.obj
    [("question", Json.str "What is the purpose of flashcards?"),
     ("answer", Json.str "Flashcards are used as a study aid to improve memory through spaced repetition.")]]

/-- The conversion loop over `cards`: each card dict becomes a full
flashcard with a fresh id (`uuidGen` indexed by position), the `front`
falling back from `front` to `question` to the empty string under Python
`or`, and likewise for `back`.  A non-dict card raises an uncaught
`AttributeError`. -/
def buildCards (uuidGen : Nat → String) (topic : Json) :
    List Json → Nat → Except String (List Flashcard)
  | [], _ => .ok []
  | .obj fs :: rest, i =>
    let front := pyOrJson (jlookup fs "front") (pyOrJson (jlookup fs "question") (.str ""))
    let back := pyOrJson (jlookup fs "back") (pyOrJson (jlookup fs "answer") (.str ""))
    match buildCards uuidGen topic rest (i + 1) with
    | .ok cards => .ok (⟨uuidGen i, front, back, topic⟩ :: cards)
    | .error e => .error e
  | _ :: _, _ => .error "AttributeError: card has no attribute get"

/-- Embedding of `flashcard_generator.lambda_handler`.  `llm` is the
chat-completion call on the built prompt; its JSON reply is parsed and,
when any step of that `try` block raises, the dummy cards are used.  In
the credentialed path the prompt concatenation requires `summary` to be a
string. -/
def lambda_handler (env : List (String × String)) (openaiMod : Bool)
    (llm : String → Except String String) (uuidGen : Nat → String)
    (event : Event) : Except String (HttpResp (List Flashcard)) :=
  match parseBody event with
  | .error (.crash e) => .error e
  | .error (.badJson e) => .ok ⟨400, .error ("Invalid input: " ++ e)⟩
  | .ok (.obj fields) =>
    match jlookup fields "summary" with
    | none => .ok ⟨400, .error "Invalid input: KeyError summary"⟩
    | some summary =>
      let topic_id := (jlookup fields "topicId").getD (.str "general")
      match ((if openaiMod ∧ (envTruthy env "OPENAI_API_KEY").isSome then
                match summary with
                | .str s =>
                  let prompt := "Generate three flashcards from the following summary. Return the result as JSON: a list where each element has front and back fields, representing the question and answer.\n\nSummary:\n" ++ s
                  match llm prompt with
                  | .ok content =>
                    match json_loads (pyStrip content) with
                    | .ok v => .ok v
                    | .error _ => .ok (Json.arr dummy_flashcards)
                  | .error _ => .ok (Json.arr dummy_flashcards)
                | _ => .error "TypeError: can only concatenate str"
              else .ok (Json.arr dummy_flashcards)) : Except String Json) with
      | .error e => .error e
      | .ok cardsJ =>
        match cardsJ with
        | .arr cards =>
          match buildCards uuidGen topic_id cards 0 with
          | .ok flashcards => .ok ⟨200, .ok flashcards⟩
          | .error e => .error e
        | _ => .error "TypeError: cards value is not iterable as dicts"
  | .ok _ => .error "TypeError: payload is not a dict"

end FlashcardGen

/-! ## Claim theorems -/

/-- Helper: the handler's score on two lists of strings is the count of
index-wise equal pairs of the zipped lists. -/
theorem scoreOf_map_str (answers correct : List String) :
    SubmitQuiz.scoreOf (answers.map Json.str) (correct.map Json.str) =
      (answers.zip correct).countP (fun p => decide (p.1 = p.2)) := by
  unfold SubmitQuiz.scoreOf
  rw [List.zip_map, List.countP_map]
  congr 1

/-- Helper: the count of index-wise equal pairs is at most the length of
the second list. -/
theorem countP_zip_le (answers correct : List String) :
    (answers.zip correct).countP (fun p => decide (p.1 = p.2)) ≤ correct.length := by
  calc (answers.zip correct).countP (fun p => decide (p.1 = p.2))
      ≤ (answers.zip correct).length := List.countP_le_length _
    _ ≤ correct.length := by rw [List.length_zip]; exact Nat.min_le_right _ _

/-- C1: for every submission whose body parses to an object with the
required fields `userId`, `answers` (a list of strings) and
`correctAnswers` (a list of strings), the handler returns 200 with score
equal to the number of index-wise equal elements over the zipped (hence
truncated-to-the-shorter) lists, that score is at most the length of
`correctAnswers`, and no error occurs whatever the relative lengths. -/
theorem submit_quiz_score_correct (env : List (String × String)) (now : Int) (event : Event)
    (fields : List (String × Json)) (uid : Json) (answers correct : List String)
    (hpb : parseBody event = .ok (.obj fields))
    (hu : jlookup fields "userId" = some uid)
    (ha : jlookup fields "answers" = some (.arr (answers.map Json.str)))
    (hc : jlookup fields "correctAnswers" = some (.arr (correct.map Json.str))) :
    ∃ item, SubmitQuiz.lambda_handler env now event =
        .ok (⟨200, .ok ((answers.zip correct).countP (fun p => decide (p.1 = p.2)))⟩, item)
      ∧ (answers.zip correct).countP (fun p => decide (p.1 = p.2)) ≤ correct.length := by
  refine ⟨?_, ?_, countP_zip_le answers correct⟩
  · exact match envTruthy env "QUIZ_RESULTS_TABLE" with
      | some _ => some ⟨uid, (jlookup fields "quizId").getD (.str "unknown"), now,
          SubmitQuiz.scoreOf (answers.map Json.str) (correct.map Json.str), (correct.map Json.str).length⟩
      | none => none
  · simp only [SubmitQuiz.lambda_handler, hpb, hu, ha, hc, scoreOf_map_str]

/-- C1 witness: the specification example input yields score 2. -/
theorem submit_quiz_score_correct_witness :
    ∃ item, SubmitQuiz.lambda_handler [] 0
        { body := some "\x7b\"userId\": \"u1\", \"answers\": [\"A\",\"B\",\"C\"], \"correctAnswers\": [\"A\",\"C\",\"C\"]\x7d" } =
        .ok (⟨200, .ok ((["A", "B", "C"].zip ["A", "C", "C"]).countP (fun p => decide (p.1 = p.2)))⟩, item)
      ∧ (["A", "B", "C"].zip ["A", "C", "C"]).countP (fun p => decide (p.1 = p.2)) ≤ ["A", "C", "C"].length :=
  submit_quiz_score_correct [] 0 _
    [("userId", .str "u1"),
     ("answers", .arr [.str "A", .str "B", .str "C"]),
     ("correctAnswers", .arr [.str "A", .str "C", .str "C"])]
    (.str "u1") ["A", "B", "C"] ["A", "C", "C"] rfl rfl rfl rfl

/-- C2: a progress update whose body parses with a string `userId` and an
optional integer `xp` (defaulting to 0), against a configured progress
table, returns 200 with the updated record, whose `lastActivity` is the
current epoch seconds; a new user gets exactly the submitted xp and
streak 1, and an existing record gains the submitted xp and exactly one
streak step unconditionally, whatever its previous `lastActivity` and
whatever the current time. -/
theorem save_progress_update_correct (env : List (String × String))
    (store : String → Option SaveProgress.ProgressItem) (now : Int) (event : Event)
    (fields : List (String × Json)) (uid : String) (xpv : Int)
    (htable : (envTruthy env "PROGRESS_TABLE").isSome)
    (hpb : parseBody event = .ok (.obj fields))
    (hu : jlookup fields "userId" = some (.str uid))
    (hxp : jlookup fields "xp" = some (.num xpv) ∨ (jlookup fields "xp" = none ∧ xpv = 0)) :
    ∃ newItem,
      SaveProgress.lambda_handler env store now event =
        .ok (⟨200, .ok (uid, newItem)⟩, fun u => if u = uid then some newItem else store u)
      ∧ newItem.lastActivity = some now
      ∧ (store uid = none → newItem = ⟨some xpv, some 1, some now⟩)
      ∧ (∀ x0 s0 la, store uid = some ⟨some x0, some s0, la⟩ →
          newItem = ⟨some (x0 + xpv), some (s0 + 1), some now⟩) := by
  obtain ⟨t, ht⟩ := Option.isSome_iff_exists.mp htable
  refine ⟨SaveProgress.updateProgress (store uid) xpv now, ?_, ?_, ?_, ?_⟩
  · rcases hxp with h | ⟨h, rfl⟩ <;>
      simp only [SaveProgress.lambda_handler, hpb, hu, h, ht, pyInt]
  · simp [SaveProgress.updateProgress]
  · intro h0
    simp [SaveProgress.updateProgress, h0]
  · intro x0 s0 la h0
    simp [SaveProgress.updateProgress, h0]

/-- C2 witness: an existing record with xp 7 and streak 3 updated with
xp 10 at time 50 becomes xp 17, streak 4, lastActivity 50. -/
theorem save_progress_update_correct_witness :
    ∃ newItem,
      SaveProgress.lambda_handler [("PROGRESS_TABLE", "p")]
          (fun u => if u = "u1" then some ⟨some 7, some 3, some 1⟩ else none) 50
          { body := some "\x7b\"userId\": \"u1\", \"xp\": 10\x7d" } =
        .ok (⟨200, .ok ("u1", newItem)⟩,
          fun u => if u = "u1" then some newItem
            else (fun u2 => if u2 = "u1" then some ⟨some 7, some 3, some 1⟩ else none) u)
      ∧ newItem.lastActivity = some 50
      ∧ ((fun u => if u = "u1" then some (⟨some 7, some 3, some 1⟩ : SaveProgress.ProgressItem) else none) "u1" = none →
          newItem = ⟨some 10, some 1, some 50⟩)
      ∧ (∀ x0 s0 la,
          (fun u => if u = "u1" then some (⟨some 7, some 3, some 1⟩ : SaveProgress.ProgressItem) else none) "u1" = some ⟨some x0, some s0, la⟩ →
          newItem = ⟨some (x0 + 10), some (s0 + 1), some 50⟩) :=
  save_progress_update_correct [("PROGRESS_TABLE", "p")]
    (fun u => if u = "u1" then some ⟨some 7, some 3, some 1⟩ else none) 50 _
    [("userId", .str "u1"), ("xp", .num 10)] "u1" 10 (by decide) rfl rfl (Or.inl rfl)

/-- C3: a performance query whose body parses with a string `userId`,
against a configured results table, returns 200 with `totalQuizzes` the
number of stored rows for that user, `totalScore` the sum of their score
attributes, and `averageScore` the exact quotient when `totalQuizzes` is
nonzero and 0 when the user has no rows, so no division by zero ever
occurs. -/
theorem get_performance_aggregates_correct (env : List (String × String))
    (table : String → List GetPerformance.PerfRow) (event : Event)
    (fields : List (String × Json)) (uid : String)
    (htable : (envTruthy env "QUIZ_RESULTS_TABLE").isSome)
    (hpb : parseBody event = .ok (.obj fields))
    (hu : jlookup fields "userId" = some (.str uid)) :
    ∃ stats : GetPerformance.PerfStats,
      GetPerformance.lambda_handler env table event = .ok ⟨200, .ok stats⟩
      ∧ stats.totalQuizzes = (table uid).length
      ∧ stats.totalScore = ((table uid).map (fun r => r.score.getD 0)).sum
      ∧ (stats.totalQuizzes ≠ 0 →
          stats.averageScore = (stats.totalScore : ℚ) / (stats.totalQuizzes : ℚ))
      ∧ (stats.totalQuizzes = 0 → stats.averageScore = 0) := by
  obtain ⟨t, ht⟩ := Option.isSome_iff_exists.mp htable
  refine ⟨⟨uid, (table uid).length, (((table uid).map (fun r => r.score.getD 0)).sum : Int),
    if (table uid).length ≠ 0 then ((((table uid).map (fun r => r.score.getD 0)).sum : Int) : ℚ) / ((table uid).length : ℚ) else 0⟩,
    ?_, rfl, rfl, ?_, ?_⟩
  · simp only [GetPerformance.lambda_handler, hpb, hu, ht]
  · intro h
    simp only at h ⊢
    rw [if_pos h]
  · intro h
    simp only at h ⊢
    rw [if_neg (by simp [h])]

/-- C3 witness: three rows with scores 3, 4 and an absent score give
totalQuizzes 3, totalScore 7 and averageScore 7/3; an empty row set gives
averageScore 0. -/
theorem get_performance_aggregates_correct_witness :
    (∃ stats : GetPerformance.PerfStats,
      GetPerformance.lambda_handler [("QUIZ_RESULTS_TABLE", "t")]
          (fun _ => [⟨some 3⟩, ⟨some 4⟩, ⟨none⟩]) { body := some "\x7b\"userId\": \"u1\"\x7d" } = .ok ⟨200, .ok stats⟩
      ∧ stats.totalQuizzes = 3 ∧ stats.totalScore = 7
      ∧ (stats.totalQuizzes ≠ 0 → stats.averageScore = (stats.totalScore : ℚ) / (stats.totalQuizzes : ℚ))
      ∧ (stats.totalQuizzes = 0 → stats.averageScore = 0))
    ∧ (∃ stats : GetPerformance.PerfStats,
      GetPerformance.lambda_handler [("QUIZ_RESULTS_TABLE", "t")]
          (fun _ => []) { body := some "\x7b\"userId\": \"u1\"\x7d" } = .ok ⟨200, .ok stats⟩
      ∧ stats.totalQuizzes = 0 ∧ stats.totalScore = 0
      ∧ (stats.totalQuizzes ≠ 0 → stats.averageScore = (stats.totalScore : ℚ) / (stats.totalQuizzes : ℚ))
      ∧ (stats.totalQuizzes = 0 → stats.averageScore = 0)) := by
  constructor
  · have h := get_performance_aggregates_correct [("QUIZ_RESULTS_TABLE", "t")]
      (fun _ => [⟨some 3⟩, ⟨some 4⟩, ⟨none⟩]) { body := some "\x7b\"userId\": \"u1\"\x7d" }
      [("userId", .str "u1")] "u1" (by decide) rfl rfl
    simpa using h
  · have h := get_performance_aggregates_correct [("QUIZ_RESULTS_TABLE", "t")]
      (fun _ => []) { body := some "\x7b\"userId\": \"u1\"\x7d" }
      [("userId", .str "u1")] "u1" (by decide) rfl rfl
    simpa using h

/-- C4 counterexample: with the bucket setting absent, the
reference-document handler's download action answers 500 but with the
body "BUCKET_NAME environment variable not set", which is not the
claimed "BUCKET_NAME not configured". -/
theorem papers_config_error_message_differs :
    PapersHandler.lambda_handler [] (fun _ => .ok ()) [] { action := some "download_papers" } =
      ⟨500, .error "BUCKET_NAME environment variable not set"⟩
    ∧ ("BUCKET_NAME environment variable not set" : String) ≠ "BUCKET_NAME not configured" := by
  refine ⟨rfl, by decide⟩

/-- C4 as amended: with the required environment setting absent, the
progress and performance handlers (on requests whose body parses with the
required fields) and the upload handler (on every request) return 500
with body exactly "<setting> not configured", while the
reference-document handler returns 500 with body exactly
"BUCKET_NAME environment variable not set" for both of its actions. -/
theorem missing_config_returns_500 :
    (∀ env store (now : Int) event fields uid xpv,
      envTruthy env "PROGRESS_TABLE" = none →
      parseBody event = .ok (.obj fields) →
      jlookup fields "userId" = some uid →
      (jlookup fields "xp" = some (.num xpv) ∨ jlookup fields "xp" = none) →
      SaveProgress.lambda_handler env store now event =
        .ok (⟨500, .error "PROGRESS_TABLE not configured"⟩, store))
    ∧ (∀ env table event fields uid,
      envTruthy env "QUIZ_RESULTS_TABLE" = none →
      parseBody event = .ok (.obj fields) →
      jlookup fields "userId" = some uid →
      GetPerformance.lambda_handler env table event =
        .ok ⟨500, .error "QUIZ_RESULTS_TABLE not configured"⟩)
    ∧ (∀ env event,
      envTruthy env "UPLOADS_BUCKET_NAME" = none →
      UploadHandler.lambda_handler env event =
        .ok (⟨500, .error "UPLOADS_BUCKET_NAME not configured"⟩, none))
    ∧ (∀ env fetch objects,
      envTruthy env "BUCKET_NAME" = none →
      PapersHandler.lambda_handler env fetch objects { action := some "download_papers" } =
        ⟨500, .error "BUCKET_NAME environment variable not set"⟩
      ∧ PapersHandler.lambda_handler env fetch objects { action := some "list_papers" } =
        ⟨500, .error "BUCKET_NAME environment variable not set"⟩) := by
  refine ⟨?_, ?_, ?_, ?_⟩
  · intro env store now event fields uid xpv henv hpb hu hxp
    rcases hxp with h | h <;>
      simp only [SaveProgress.lambda_handler, hpb, hu, h, henv, pyInt]
  · intro env table event fields uid henv hpb hu
    simp only [GetPerformance.lambda_handler, hpb, hu, henv]
  · intro env event henv
    simp only [UploadHandler.lambda_handler, henv]
  · intro env fetch objects henv
    constructor <;>
      simp only [PapersHandler.lambda_handler, PapersHandler.handle_download_papers,
        PapersHandler.handle_list_papers, henv]

/-- C4 witness: with the empty environment, concrete well-formed requests
to the four handlers produce the four 500 responses. -/
theorem missing_config_returns_500_witness :
    SaveProgress.lambda_handler [] (fun _ => none) 0 { body := some "\x7b\"userId\": \"u1\"\x7d" } =
      .ok (⟨500, .error "PROGRESS_TABLE not configured"⟩, fun _ => none)
    ∧ GetPerformance.lambda_handler [] (fun _ => []) { body := some "\x7b\"userId\": \"u1\"\x7d" } =
      .ok ⟨500, .error "QUIZ_RESULTS_TABLE not configured"⟩
    ∧ UploadHandler.lambda_handler [] { body := some "\x7b\x7d" } =
      .ok (⟨500, .error "UPLOADS_BUCKET_NAME not configured"⟩, none)
    ∧ PapersHandler.lambda_handler [] (fun _ => .ok ()) [] { action := some "download_papers" } =
      ⟨500, .error "BUCKET_NAME environment variable not set"⟩ :=
  ⟨missing_config_returns_500.1 [] (fun _ => none) 0 _ [("userId", .str "u1")] (.str "u1") 0
      rfl rfl rfl (Or.inr rfl),
   missing_config_returns_500.2.1 [] (fun _ => []) _ [("userId", .str "u1")] (.str "u1")
      rfl rfl rfl,
   missing_config_returns_500.2.2.1 [] _ rfl,
   (missing_config_returns_500.2.2.2 [] (fun _ => .ok ()) [] rfl).1⟩

/-- Helper: the fallback summary leaves a text of at most 1000 characters
unchanged. -/
theorem fallback_summary_short (text : String) (h : text.length ≤ 1000) :
    SummarizeContent.fallback_summary text = text := by
  cases text with
  | mk data =>
    simp only [SummarizeContent.fallback_summary, String.length] at h ⊢
    rw [List.take_of_length_le h, if_neg (by omega)]
    show String.mk (data ++ []) = String.mk data
    rw [List.append_nil]

/-- C5 counterexample: with no language-model credential configured, the
empty input text (whose length is at most 1000) is not returned unchanged
as the summary: the handler answers 400 with a missing-content error
instead of 200. -/
theorem summarize_empty_text_rejected :
    SummarizeContent.lambda_handler [] true (fun _ => .error "unavailable")
        (fun _ => .error "unavailable") { body := some "\x7b\"text\": \"\"\x7d" } =
      .ok ⟨400, .error "Missing text or fileContent in request"⟩
    ∧ (400 : Nat) ≠ 200 :=
  ⟨rfl, by decide⟩

/-- C5 as amended: for every nonempty input text, when no language-model
credential is configured the summarization handler returns 200 with the
input unchanged as the summary if its length is at most 1000 characters,
and with exactly the first 1000 characters followed by "..." if its
length exceeds 1000; the empty text is instead rejected with a 400
missing-content error before summarisation. -/
theorem summarize_fallback_correct (env : List (String × String)) (openaiMod : Bool)
    (llm extractPdf : String → Except String String) (event : Event)
    (fields : List (String × Json)) (text : String)
    (hkey : envTruthy env "OPENAI_API_KEY" = none)
    (hpb : parseBody event = .ok (.obj fields))
    (ht : jlookup fields "text" = some (.str text))
    (hne : text ≠ "") :
    SummarizeContent.lambda_handler env openaiMod llm extractPdf event =
      .ok ⟨200, .ok (SummarizeContent.fallback_summary text)⟩
    ∧ (text.length ≤ 1000 → SummarizeContent.fallback_summary text = text)
    ∧ (1000 < text.length →
        SummarizeContent.fallback_summary text = String.mk (text.data.take 1000) ++ "...") := by
  refine ⟨?_, fun h => fallback_summary_short text h, fun h => ?_⟩
  · simp only [SummarizeContent.lambda_handler, hpb, ht, hkey, hne]
    simp [hne]
  · simp only [SummarizeContent.fallback_summary, String.length] at h ⊢
    rw [if_pos h]

/-- C5 witness: the five-character text "hello" is summarised to itself,
and the length bounds behave as stated. -/
theorem summarize_fallback_correct_witness :
    SummarizeContent.lambda_handler [] true (fun _ => .error "unavailable")
        (fun _ => .error "unavailable") { body := some "\x7b\"text\": \"hello\"\x7d" } =
      .ok ⟨200, .ok (SummarizeContent.fallback_summary "hello")⟩
    ∧ (("hello" : String).length ≤ 1000 → SummarizeContent.fallback_summary "hello" = "hello")
    ∧ (1000 < ("hello" : String).length →
        SummarizeContent.fallback_summary "hello" = String.mk (("hello" : String).data.take 1000) ++ "...") :=
  summarize_fallback_correct [] true (fun _ => .error "unavailable") (fun _ => .error "unavailable")
    { body := some "\x7b\"text\": \"hello\"\x7d" } [("text", .str "hello")] "hello"
    rfl rfl rfl (by decide)

/-- C6 counterexample: an absent body with `isBase64Encoded: true` is not
treated as the empty mapping: the placeholder text is base64-decoded to
the empty string (CPython discards the two non-alphabet characters), JSON
parsing of the empty string fails, and the quiz handler turns that into a
400 error. -/
theorem absent_body_base64_is_error :
    parseBody { body := none, isBase64Encoded := true } = .error (.badJson "Expecting value")
    ∧ parseBody { body := none, isBase64Encoded := true } ≠ .ok (.obj [])
    ∧ SubmitQuiz.lambda_handler [] 0 { body := none, isBase64Encoded := true } =
      .ok (⟨400, .error "Invalid input: Expecting value"⟩, none) :=
  ⟨rfl, fun h => Except.noConfusion h, rfl⟩

/-- C6 as amended: when `isBase64Encoded` is true and a nonempty body is
present, the body is base64-decoded to text before JSON parsing; when the
flag is false or absent the body is parsed as-is; an absent or empty body
is treated as the empty JSON mapping when the flag is false or absent,
but with the flag set it is base64-decoded to the empty string and JSON
parsing fails. -/
theorem body_decode_pipeline :
    (∀ event b t, event.isBase64Encoded = true → event.body = some b → b ≠ "" →
      pyB64DecodeStr b = .ok t →
      ((∀ j, json_loads t = .ok j → parseBody event = .ok j)
       ∧ (∀ e, json_loads t = .error e → parseBody event = .error (.badJson e))))
    ∧ (∀ event b, event.isBase64Encoded = false → event.body = some b → b ≠ "" →
      ((∀ j, json_loads b = .ok j → parseBody event = .ok j)
       ∧ (∀ e, json_loads b = .error e → parseBody event = .error (.badJson e))))
    ∧ (∀ event, event.isBase64Encoded = false → (event.body = none ∨ event.body = some "") →
      parseBody event = .ok (.obj []))
    ∧ (∀ event, event.isBase64Encoded = true → (event.body = none ∨ event.body = some "") →
      parseBody event = .error (.badJson "Expecting value")) := by
  refine ⟨?_, ?_, ?_, ?_⟩
  · intro event b t hflag hb hne hdec
    constructor
    · intro j hj
      simp only [parseBody, hb, hflag, if_neg hne, hdec, hj, if_true]
    · intro e he
      simp only [parseBody, hb, hflag, if_neg hne, hdec, he, if_true]
  · intro event b hflag hb hne
    constructor
    · intro j hj
      simp only [parseBody, hb, hflag, if_neg hne, hj, Bool.false_eq_true, if_false]
    · intro e he
      simp only [parseBody, hb, hflag, if_neg hne, he, Bool.false_eq_true, if_false]
  · intro event hflag hb
    rcases hb with h | h <;> simp only [parseBody, h, hflag, if_pos rfl] <;> rfl
  · intro event hflag hb
    rcases hb with h | h <;> simp only [parseBody, h, hflag, if_pos rfl] <;> rfl

/-- C6 witness: a base64 body decodes then parses, a plain body parses
as-is, an absent body with the flag unset yields the empty mapping, and
an empty body with the flag set yields a parse error. -/
theorem body_decode_pipeline_witness :
    parseBody { body := some "eyJ1c2VySWQiOiAidTEifQ==", isBase64Encoded := true } =
      .ok (.obj [("userId", .str "u1")])
    ∧ parseBody { body := some "\x7b\"a\": 1\x7d" } = .ok (.obj [("a", .num 1)])
    ∧ parseBody { body := none } = .ok (.obj [])
    ∧ parseBody { body := some "", isBase64Encoded := true } =
      .error (.badJson "Expecting value") :=
  ⟨(body_decode_pipeline.1 { body := some "eyJ1c2VySWQiOiAidTEifQ==", isBase64Encoded := true }
      "eyJ1c2VySWQiOiAidTEifQ==" "\x7b\"userId\": \"u1\"\x7d" rfl rfl (by decide) rfl).1
      (.obj [("userId", .str "u1")]) rfl,
   (body_decode_pipeline.2.1 { body := some "\x7b\"a\": 1\x7d" } "\x7b\"a\": 1\x7d"
      rfl rfl (by decide)).1 (.obj [("a", .num 1)]) rfl,
   body_decode_pipeline.2.2.1 { body := none } rfl (Or.inl rfl),
   body_decode_pipeline.2.2.2 { body := some "", isBase64Encoded := true } rfl (Or.inr rfl)⟩

/-- C7: the token-verification handler answers 401 with a missing-header
error when neither authorization header is present, 401 with a format
error when the header does not split into exactly two whitespace-separated
parts whose first is case-insensitively "bearer", 401 with the failure
description when the verifier rejects the token, and 200 with the decoded
claims when verification succeeds. -/
theorem jwt_verify_responses (verify : String → Except String Json) (event : Event) :
    (JwtVerify.getAuthHeader event.headers = none →
      JwtVerify.lambda_handler verify event = ⟨401, .error "Missing Authorization header"⟩)
    ∧ (∀ h, JwtVerify.getAuthHeader event.headers = some h → h ≠ "" →
        ((JwtVerify.pySplitWs h).length ≠ 2 ∨
          JwtVerify.asciiLower ((JwtVerify.pySplitWs h).headD "") ≠ "bearer") →
        JwtVerify.lambda_handler verify event = ⟨401, .error "Invalid authorization format"⟩)
    ∧ (∀ h s tok e, JwtVerify.getAuthHeader event.headers = some h →
        JwtVerify.pySplitWs h = [s, tok] → JwtVerify.asciiLower s = "bearer" →
        verify tok = .error e →
        JwtVerify.lambda_handler verify event =
          ⟨401, .error ("Token verification failed: " ++ e)⟩)
    ∧ (∀ h s tok c, JwtVerify.getAuthHeader event.headers = some h →
        JwtVerify.pySplitWs h = [s, tok] → JwtVerify.asciiLower s = "bearer" →
        verify tok = .ok c →
        JwtVerify.lambda_handler verify event = ⟨200, .ok c⟩) := by
  have hsplit_empty : JwtVerify.pySplitWs "" = [] := rfl
  refine ⟨?_, ?_, ?_, ?_⟩
  · intro hna
    simp only [JwtVerify.lambda_handler, hna]
  · intro h hh hne hbad
    simp only [JwtVerify.lambda_handler, hh, if_neg hne]
    rw [if_pos hbad]
  · intro h s tok e hh hsp hlow hv
    have hne : h ≠ "" := by
      intro h0
      rw [h0, hsplit_empty] at hsp
      exact List.noConfusion hsp
    simp only [JwtVerify.lambda_handler, hh, if_neg hne, hsp]
    rw [if_neg (by simp [hlow])]
    simp only [hv]
  · intro h s tok c hh hsp hlow hv
    have hne : h ≠ "" := by
      intro h0
      rw [h0, hsplit_empty] at hsp
      exact List.noConfusion hsp
    simp only [JwtVerify.lambda_handler, hh, if_neg hne, hsp]
    rw [if_neg (by simp [hlow])]
    simp only [hv]

/-- C7 witness: a request without headers gets the missing-header 401, a
basic-scheme header gets the format 401, an expired bearer token gets the
verification-failure 401, and an upper-case bearer scheme with an
accepted token gets 200 with the claims. -/
theorem jwt_verify_responses_witness :
    JwtVerify.lambda_handler (fun t => if t = "tok" then .ok (.str "c") else .error "expired")
        { headers := [] } = ⟨401, .error "Missing Authorization header"⟩
    ∧ JwtVerify.lambda_handler (fun t => if t = "tok" then .ok (.str "c") else .error "expired")
        { headers := [("authorization", "Basic abc")] } =
      ⟨401, .error "Invalid authorization format"⟩
    ∧ JwtVerify.lambda_handler (fun t => if t = "tok" then .ok (.str "c") else .error "expired")
        { headers := [("authorization", "bearer old")] } =
      ⟨401, .error ("Token verification failed: " ++ "expired")⟩
    ∧ JwtVerify.lambda_handler (fun t => if t = "tok" then .ok (.str "c") else .error "expired")
        { headers := [("Authorization", "BEARER tok")] } = ⟨200, .ok (.str "c")⟩ :=
  ⟨(jwt_verify_responses _ { headers := [] }).1 rfl,
   (jwt_verify_responses _ { headers := [("authorization", "Basic abc")] }).2.1
      "Basic abc" rfl (by decide) (by decide),
   (jwt_verify_responses _ { headers := [("authorization", "bearer old")] }).2.2.1
      "bearer old" "bearer" "old" "expired" rfl rfl rfl rfl,
   (jwt_verify_responses _ { headers := [("Authorization", "BEARER tok")] }).2.2.2
      "BEARER tok" "BEARER" "tok" (.str "c") rfl rfl rfl rfl⟩

/-- C8: with a configured bucket, the download action returns 200 with
one entry per document of the fixed mapping; each entry is determined by
that document's own fetch outcome alone, a failure being recorded inline
as "<key>: error <message>" while the other documents still get their
own entries. -/
theorem papers_download_failure_isolated (env : List (String × String))
    (fetch : String → Except String Unit) (objects : List String) (event : Event)
    (hbucket : (envTruthy env "BUCKET_NAME").isSome)
    (haction : event.action = some "download_papers") :
    ∃ saved, PapersHandler.lambda_handler env fetch objects event = ⟨200, .ok saved⟩
      ∧ saved.length = PapersHandler.exam_urls.length
      ∧ ∀ i, i < PapersHandler.exam_urls.length →
          ((fetch (PapersHandler.exam_urls.getD i ("", "")).2 = .ok () →
              saved.getD i "" = (PapersHandler.exam_urls.getD i ("", "")).1 ++ ".pdf")
           ∧ (∀ e, fetch (PapersHandler.exam_urls.getD i ("", "")).2 = .error e →
              saved.getD i "" =
                (PapersHandler.exam_urls.getD i ("", "")).1 ++ ".pdf: error " ++ e)) := by
  obtain ⟨t, ht⟩ := Option.isSome_iff_exists.mp hbucket
  refine ⟨PapersHandler.exam_urls.map (fun nu =>
      match fetch nu.2 with
      | .ok _ => nu.1 ++ ".pdf"
      | .error e => nu.1 ++ ".pdf" ++ ": error " ++ e), ?_, by simp, ?_⟩
  · simp only [PapersHandler.lambda_handler, haction, PapersHandler.handle_download_papers, ht]
  · intro i hi
    have h3 : PapersHandler.exam_urls.length = 3 := rfl
    rw [h3] at hi
    interval_cases i <;>
      refine ⟨fun hv => ?_, fun e hv => ?_⟩ <;>
        (simp [PapersHandler.exam_urls] at hv; simp [PapersHandler.exam_urls, hv])

/-- C8 witness: with the third document's fetch failing with "timeout",
the handler still answers 200, the list still has three entries, and the
third entry records the error inline. -/
theorem papers_download_failure_isolated_witness :
    ∃ saved, PapersHandler.lambda_handler [("BUCKET_NAME", "b")]
        (fun u => if u = "https://ssc.nic.in/Downloads/portal/english/modal-question-paper-english.pdf"
          then .error "timeout" else .ok ()) [] { action := some "download_papers" } =
        ⟨200, .ok saved⟩
      ∧ saved.length = PapersHandler.exam_urls.length
      ∧ ∀ i, i < PapersHandler.exam_urls.length →
          (((fun u => if u = "https://ssc.nic.in/Downloads/portal/english/modal-question-paper-english.pdf"
              then (.error "timeout" : Except String Unit) else .ok ())
              (PapersHandler.exam_urls.getD i ("", "")).2 = .ok () →
              saved.getD i "" = (PapersHandler.exam_urls.getD i ("", "")).1 ++ ".pdf")
           ∧ (∀ e, (fun u => if u = "https://ssc.nic.in/Downloads/portal/english/modal-question-paper-english.pdf"
              then (.error "timeout" : Except String Unit) else .ok ())
              (PapersHandler.exam_urls.getD i ("", "")).2 = .error e →
              saved.getD i "" =
                (PapersHandler.exam_urls.getD i ("", "")).1 ++ ".pdf: error " ++ e)) :=
  papers_download_failure_isolated [("BUCKET_NAME", "b")]
    (fun u => if u = "https://ssc.nic.in/Downloads/portal/english/modal-question-paper-english.pdf"
      then .error "timeout" else .ok ()) [] { action := some "download_papers" }
    (by decide) rfl

/-- C9: the upload handler checks its bucket configuration before parsing
the body, so with the setting absent every event — whatever its body —
gets the 500 misconfiguration response, which in particular is never a
400. -/
theorem upload_config_before_parse (env : List (String × String)) (event : Event)
    (h : envTruthy env "UPLOADS_BUCKET_NAME" = none) :
    UploadHandler.lambda_handler env event =
      .ok (⟨500, .error "UPLOADS_BUCKET_NAME not configured"⟩, none)
    ∧ (500 : Nat) ≠ 400 := by
  refine ⟨?_, by decide⟩
  simp only [UploadHandler.lambda_handler, h]

/-- C9 witness: with the empty environment, even a malformed,
non-JSON body gets the 500 misconfiguration response rather than a
400. -/
theorem upload_config_before_parse_witness :
    UploadHandler.lambda_handler [] { body := some "not json at all" } =
      .ok (⟨500, .error "UPLOADS_BUCKET_NAME not configured"⟩, none)
    ∧ (500 : Nat) ≠ 400 :=
  upload_config_before_parse [] { body := some "not json at all" } rfl

/-- C10: a request whose body parses with the key "summary" bound to the
empty string is not rejected: with no language-model credential
configured the handler returns 200 with the one-element placeholder
flashcard list, which is non-empty. -/
theorem flashcards_empty_summary_ok (env : List (String × String)) (openaiMod : Bool)
    (llm : String → Except String String) (uuidGen : Nat → String) (event : Event)
    (fields : List (String × Json))
    (hkey : envTruthy env "OPENAI_API_KEY" = none)
    (hpb : parseBody event = .ok (.obj fields))
    (hs : jlookup fields "summary" = some (.str "")) :
    ∃ card, FlashcardGen.lambda_handler env openaiMod llm uuidGen event = .ok ⟨200, .ok [card]⟩
      ∧ ([card] : List FlashcardGen.Flashcard) ≠ [] := by
  refine ⟨⟨uuidGen 0, .str "What is the purpose of flashcards?",
    .str "Flashcards are used as a study aid to improve memory through spaced repetition.",
    (jlookup fields "topicId").getD (.str "general")⟩, ?_, by simp⟩
  simp [FlashcardGen.lambda_handler, hpb, hs, hkey, FlashcardGen.dummy_flashcards,
    FlashcardGen.buildCards, pyOrJson, jlookup, jsonTruthy]

/-- C10 witness: the concrete request whose body is the object binding
"summary" to the empty string gets 200 with one placeholder card. -/
theorem flashcards_empty_summary_ok_witness :
    ∃ card, FlashcardGen.lambda_handler [] true (fun _ => .error "unavailable")
        (fun _ => "id-0") { body := some "\x7b\"summary\": \"\"\x7d" } = .ok ⟨200, .ok [card]⟩
      ∧ ([card] : List FlashcardGen.Flashcard) ≠ [] :=
  flashcards_empty_summary_ok [] true (fun _ => .error "unavailable") (fun _ => "id-0")
    { body := some "\x7b\"summary\": \"\"\x7d" } [("summary", .str "")] rfl rfl rfl
